import Mathlib

/-!
Verification development for the form-check-agent repository.

The client-side analysis pipeline is embedded shallowly:
* `FormCheck.TTS` embeds the `speak` rate-limiter/deduplicator of
  `src/hooks/useTTS.ts` (the expo-audio version, `MIN_SPEAK_INTERVAL_MS = 3000`).
* `FormCheck.Client` embeds the WebSocket message handler and `resetReps`
  of `src/app/form-check.tsx`.
* `FormCheck.Skeleton` embeds the landmark-update effect, dead-reckoning
  animation loop and `getPoint` of `src/components/SkeletonOverlay.tsx`.
* `FormCheck.Analyzer` models the server-side rep state machine and rep
  validator; that code is not part of this tree, so it is modelled from the
  specification (each such definition is marked `Modelled from the spec:`).

Times are naturals (milliseconds, as `Date.now()`), coordinates and angles
are rationals.  JavaScript's `now - last < k` on a clock that never runs
backwards agrees with truncated `Nat` subtraction, which is used throughout.
-/

namespace FormCheck

/-! ## Text-to-speech hook (src/hooks/useTTS.ts, expo-audio version) -/

namespace TTS

/-- `MIN_SPEAK_INTERVAL_MS` from src/hooks/useTTS.ts. -/
def MIN_SPEAK_INTERVAL_MS : Nat := 3000

/-- `SKIP_MESSAGES` from src/hooks/useTTS.ts: generic messages never vocalized. -/
def SKIP_MESSAGES : List String :=
  ["Position yourself in frame", "Start Squatting", "Start Push-ups",
   "Nice, just a little more chest lift", "Let\x27s engage that core"]

/-- The mutable refs of the hook that `speak` reads and writes:
`lastSpokenTextRef`, `lastSpeakTimeRef`, `isSpeakingRef`. -/
structure State where
  lastSpokenText : String
  lastSpeakTime : Nat
  isSpeaking : Bool
deriving DecidableEq, Repr

/-- Initial ref values of the hook. -/
def initState : State := ⟨"", 0, false⟩

/-- The guard chain of `speak` (src/hooks/useTTS.ts lines 184-229).
Returns the updated refs and whether a playback was started. -/
def speak (enabled : Bool) (s : State) (text : String) (now : Nat) :
    State × Bool :=
  if !enabled || text = "" then (s, false)
  else if SKIP_MESSAGES.contains text then (s, false)
  else if text = s.lastSpokenText then (s, false)
  else if now - s.lastSpeakTime < MIN_SPEAK_INTERVAL_MS then (s, false)
  else if s.isSpeaking then (s, false)
  else (⟨text, now, true⟩, true)

/-- The `didJustFinish` playback-status callback: clears `isSpeakingRef`. -/
def finishPlayback (s : State) : State := { s with isSpeaking := false }

end TTS

/-! ## Form-check screen (src/app/form-check.tsx) -/

namespace Client

/-- Feedback severity level (`'success' | 'warning' | 'error'`). -/
inductive Severity
  | success
  | warning
  | error
deriving DecidableEq, Repr

/-- `Number.MAX_SAFE_INTEGER`, the sentinel `resetReps` writes into
`lastFrameSeqRef`. -/
def maxSafeInteger : Nat := 2 ^ 53 - 1

/-- The refs and React state of `FormCheckScreen` that the WebSocket message
handler and `resetReps` read and write.  `currentSessionId` models
`currentSessionIdRef` (the ref the handler consults); JavaScript string
truthiness is modelled by `Option String` (absent/empty ↦ `none`).
`resetTimeoutScheduled` records whether the 3-second reset timeout of
`resetReps` is pending.  The TTS refs are embedded so the handler's
`speakTTS` call can be modelled. -/
structure State where
  isResetPending : Bool
  resetTimeoutScheduled : Bool
  currentSessionId : Option String
  lastFrameSeq : Nat
  validReps : Nat
  invalidReps : Nat
  feedback : String
  feedbackLevel : Severity
  lastUpdate : Nat
  lastFeedback : String
  isSetTransition : Bool
  isWorkoutComplete : Bool
  tts : TTS.State
deriving DecidableEq, Repr

/-- Initial values of the refs/state of `FormCheckScreen`. -/
def initState : State where
  isResetPending := false
  resetTimeoutScheduled := false
  currentSessionId := none
  lastFrameSeq := 0
  validReps := 0
  invalidReps := 0
  feedback := "Position yourself in frame"
  feedbackLevel := Severity.success
  lastUpdate := 0
  lastFeedback := ""
  isSetTransition := false
  isWorkoutComplete := false
  tts := TTS.initState

/-- The `analysis` sub-object of a server message
(`data.feedback.analysis`): only the fields the claims mention. -/
structure AnalysisData where
  feedback : String
  feedbackLevel : Severity
  validReps : Nat
  invalidReps : Nat
deriving DecidableEq, Repr

/-- The `data.feedback` payload of a `type: 'analysis'` server message.
`frameSeq` models `data.feedback.frame_seq ?? 0`. -/
structure AnalysisMsg where
  sessionId : Option String
  frameSeq : Nat
  analysis : Option AnalysisData
deriving DecidableEq, Repr

/-- Result of one `ws.onmessage` invocation on an analysis message:
the new state, whether the message survived the drop guards, and whether a
TTS playback was started. -/
structure HandlerResult where
  state : State
  accepted : Bool
  playbackStarted : Bool
deriving DecidableEq, Repr

/-- `activeSessionId && data.feedback.session_id && data.feedback.session_id
!== activeSessionId` (form-check.tsx line 205). -/
def sessionMismatch (s : State) (m : AnalysisMsg) : Bool :=
  match s.currentSessionId, m.sessionId with
  | some a, some b => b ≠ a
  | _, _ => false

/-- The `data.type === 'analysis'` path of `ws.onmessage`
(form-check.tsx lines 200-270): the reset-pending drop, the session-id drop,
the stale-frame-sequence drop, session adoption, the unthrottled
feedback/TTS update (only when the text differs from `lastFeedbackRef`),
and the 33 ms-throttled counter update. -/
def handleAnalysis (s : State) (m : AnalysisMsg) (now : Nat) : HandlerResult :=
  if s.isResetPending then ⟨s, false, false⟩
  else if sessionMismatch s m then ⟨s, false, false⟩
  else if 0 < m.frameSeq ∧ m.frameSeq ≤ s.lastFrameSeq then ⟨s, false, false⟩
  else
    let s1 :=
      match s.currentSessionId, m.sessionId with
      | none, some sid => { s with currentSessionId := some sid }
      | _, _ => s
    let fb :=
      match m.analysis with
      | some a =>
        if ¬s1.isSetTransition ∧ ¬s1.isWorkoutComplete ∧ a.feedback ≠ "" ∧
            a.feedback ≠ s1.lastFeedback then
          let r := TTS.speak true s1.tts a.feedback now
          ({ s1 with lastFeedback := a.feedback, feedback := a.feedback,
                     feedbackLevel := a.feedbackLevel, tts := r.1 }, r.2)
        else (s1, false)
      | none => (s1, false)
    let s3 :=
      if 33 < now - fb.1.lastUpdate then
        match m.analysis with
        | some a => { fb.1 with validReps := a.validReps,
                                invalidReps := a.invalidReps, lastUpdate := now }
        | none => { fb.1 with lastUpdate := now }
      else fb.1
    ⟨s3, true, fb.2⟩

/-- The `data.type === 'reset_confirmation'` path of `ws.onmessage`
(form-check.tsx lines 185-198). `newSessionId` is `data.new_session_id`,
`frameSeq` is `data.frame_seq ?? 0`. -/
def handleResetConfirmation (s : State) (newSessionId : Option String)
    (frameSeq : Nat) : State :=
  { s with isResetPending := false, resetTimeoutScheduled := false,
           currentSessionId := newSessionId, validReps := 0, invalidReps := 0,
           lastFrameSeq := frameSeq, lastUpdate := 0 }

/-- `resetReps` (form-check.tsx lines 333-365): sets the pending flag and
re-arms the 3-second timeout, sends `reset_reps` when the socket is open
(otherwise immediately clears flag and timeout), zeroes the counters, resets
the feedback display, clears the UI-update timestamp and bumps the
stale-frame baseline to `Number.MAX_SAFE_INTEGER`. -/
def resetReps (s : State) (wsOpen : Bool) : State :=
  let s1 := { s with isResetPending := true, resetTimeoutScheduled := true }
  let s2 := if wsOpen then s1
            else { s1 with isResetPending := false, resetTimeoutScheduled := false }
  { s2 with validReps := 0, invalidReps := 0,
            feedback := "Next set — get ready!",
            feedbackLevel := Severity.success,
            lastUpdate := 0, lastFrameSeq := maxSafeInteger }

/-- The timeout callback armed by `resetReps` (form-check.tsx lines
341-347): if the reset is still pending when it fires, it clears the flag
and installs a synthetic `client_reset_<Date.now()>` session id. -/
def fireResetTimeout (s : State) (now : Nat) : State :=
  if s.isResetPending then
    { s with isResetPending := false, resetTimeoutScheduled := false,
             currentSessionId := some ("client_reset_" ++ toString now) }
  else { s with resetTimeoutScheduled := false }

end Client

/-! ## Skeleton overlay (src/components/SkeletonOverlay.tsx)

Coordinates are rationals (normalized 0..1), times are rationals in
milliseconds (`performance.now()`).  The snap test `dist > SNAP_DISTANCE`
with `dist = Math.hypot(dx, dy)` is embedded as the equivalent comparison
of squares, `dx^2 + dy^2 > SNAP_DISTANCE^2`, to stay inside ℚ. -/

namespace Skeleton

/-- `VISIBILITY_THRESHOLD` (SkeletonOverlay.tsx line 22). -/
def VISIBILITY_THRESHOLD : ℚ := 45 / 100

/-- `LEAD_TIME_S` (line 32): seconds predicted ahead of the current time. -/
def LEAD_TIME_S : ℚ := 18 / 100

/-- `MAX_EXTRAPOLATE_S` (line 33): cap on the total extrapolation time. -/
def MAX_EXTRAPOLATE_S : ℚ := 55 / 100

/-- `VELOCITY_BLEND` (line 34): EMA blend factor for new velocity. -/
def VELOCITY_BLEND : ℚ := 45 / 100

/-- `SNAP_DISTANCE` (line 35): teleport on big jumps. -/
def SNAP_DISTANCE : ℚ := 12 / 100

/-- `JITTER_THRESHOLD` (line 36): ignore sub-pixel noise. -/
def JITTER_THRESHOLD : ℚ := 1 / 1000

/-- The per-joint interface `JointState` of SkeletonOverlay.tsx:
last server target `(tx, ty)`, smoothed velocity `(vx, vy)`, rendered
position `(rx, ry)`, visibility flag and arrival time. -/
structure JointState where
  tx : ℚ
  ty : ℚ
  vx : ℚ
  vy : ℚ
  rx : ℚ
  ry : ℚ
  visible : Bool
  arrivedAt : ℚ
deriving DecidableEq, Repr

/-- One landmark `[id, x, y, visibility]`; `visibility := none` models an
array of length ≤ 3 (the code then uses 1). -/
structure Landmark where
  id : Nat
  x : ℚ
  y : ℚ
  visibility : Option ℚ
deriving DecidableEq, Repr

/-- `lm.length > 3 ? lm[3] : 1` (line 80). -/
def effVisibility (lm : Landmark) : ℚ := lm.visibility.getD 1

/-- An entry of `prevTargetRef`. -/
structure PrevTarget where
  x : ℚ
  y : ℚ
  time : ℚ
deriving DecidableEq, Repr

/-- Velocity from consecutive server updates (lines 86-95): zero unless the
time gap is in (0.01 s, 1.5 s). -/
def newVelocity (prev : Option PrevTarget) (x y now : ℚ) : ℚ × ℚ :=
  match prev with
  | none => (0, 0)
  | some p =>
    let dtSec := (now - p.time) / 1000
    if 1 / 100 < dtSec ∧ dtSec < 3 / 2 then
      ((x - p.x) / dtSec, (y - p.y) / dtSec)
    else (0, 0)

/-- The per-joint body of the landmark-update effect (lines 98-129):
first sighting snaps everything; a jump beyond `SNAP_DISTANCE` hard-resets;
otherwise the velocity is EMA-blended and the rendered position snaps to
the dead-reckoned spot `target + v * LEAD_TIME_S`. -/
def updateJoint (j : Option JointState) (x y : ℚ) (vis : Bool)
    (newVx newVy now : ℚ) : JointState :=
  match j with
  | none => ⟨x, y, newVx, newVy, x, y, vis, now⟩
  | some j =>
    if SNAP_DISTANCE ^ 2 < (x - j.tx) ^ 2 + (y - j.ty) ^ 2 then
      { j with tx := x, ty := y, rx := x, ry := y, vx := 0, vy := 0,
               visible := vis, arrivedAt := now }
    else
      let vx := newVx * VELOCITY_BLEND + j.vx * (1 - VELOCITY_BLEND)
      let vy := newVy * VELOCITY_BLEND + j.vy * (1 - VELOCITY_BLEND)
      let leadNow := min LEAD_TIME_S MAX_EXTRAPOLATE_S
      ⟨x, y, vx, vy, x + vx * leadNow, y + vy * leadNow, vis, now⟩

/-- The last landmark the effect's `lmMap` keeps for a given id
(`for (const lm of landmarks) lmMap.set(lm[0], lm)` keeps the last
occurrence). -/
def lastEntryFor (id : Nat) (lms : List Landmark) : Option Landmark :=
  (lms.filter (fun lm => lm.id = id)).getLast?

/-- The landmark-update effect (lines 66-131) restricted to one joint id:
an empty landmark list early-returns; otherwise the joint whose id occurs in
the list is updated from its last occurrence, with mirroring applied to `x`
and the visibility flag set to `visibility >= VISIBILITY_THRESHOLD`. -/
def applyLandmarks (j : Option JointState) (p : Option PrevTarget)
    (id : Nat) (lms : List Landmark) (mirrored : Bool) (now : ℚ) :
    Option JointState × Option PrevTarget :=
  if lms.isEmpty then (j, p)
  else
    match lastEntryFor id lms with
    | none => (j, p)
    | some lm =>
      let x := if mirrored then 1 - lm.x else lm.x
      let y := lm.y
      let vis := decide (VISIBILITY_THRESHOLD ≤ effVisibility lm)
      let v := newVelocity p x y now
      (some (updateJoint j x y vis v.1 v.2 now), some ⟨x, y, now⟩)

/-- One iteration of the dead-reckoning animation loop for one joint
(lines 138-164): invisible joints are skipped; otherwise the extrapolation
time is `min(timeSinceUpdate + LEAD_TIME_S, MAX_EXTRAPOLATE_S)` and the
rendered position moves to the dead-reckoned point when it differs by more
than `JITTER_THRESHOLD`. -/
def animStep (j : JointState) (now : ℚ) : JointState :=
  if !j.visible then j
  else
    let extrapT := min ((now - j.arrivedAt) / 1000 + LEAD_TIME_S) MAX_EXTRAPOLATE_S
    let drX := j.tx + j.vx * extrapT
    let drY := j.ty + j.vy * extrapT
    if JITTER_THRESHOLD < |drX - j.rx| ∨ JITTER_THRESHOLD < |drY - j.ry| then
      { j with rx := drX, ry := drY }
    else j

/-- `getPoint` (lines 182-186): `null` for a joint that is absent or not
visible, otherwise the rendered position scaled to the view. -/
def getPoint (j : Option JointState) (w h : ℚ) : Option (ℚ × ℚ) :=
  match j with
  | none => none
  | some j => if j.visible then some (j.rx * w, j.ry * h) else none

/-- The rendered position is a dead-reckoned extrapolation of the last
server target by some time `t` between 0 and `MAX_EXTRAPOLATE_S`. -/
def extrapInv (j : JointState) : Prop :=
  ∃ t : ℚ, 0 ≤ t ∧ t ≤ MAX_EXTRAPOLATE_S ∧
    j.rx = j.tx + j.vx * t ∧ j.ry = j.ty + j.vy * t

end Skeleton

/-! ## Server-side exercise analyzer

The backend that implements `RepCycleStateMachine` and `RepValidator` is
not part of this tree (only its client is); the definitions below are
modelled from the specification, §4.4 and §4.5. -/

namespace Analyzer

/-- The four repetition phases of §3/§4.4. -/
inductive RepPhase
  | up
  | descending
  | bottom
  | ascending
deriving DecidableEq, Repr

/-- Modelled from the spec: the threshold parameters of the
`RepCycleStateMachine` (§4.4) — `upThreshold`, `lockoutThreshold`,
`bottomThreshold`, `resumeThreshold` and the `minBottomFrames` hold
count. -/
structure SMConfig where
  upThreshold : ℚ
  lockoutThreshold : ℚ
  bottomThreshold : ℚ
  resumeThreshold : ℚ
  minBottomFrames : Nat
deriving DecidableEq, Repr

/-- The squat defaults of §4.4: `upThreshold=155°, lockoutThreshold=145°,
bottomThreshold=100°, resumeThreshold=115°, minBottomFrames=2`. -/
def squatConfig : SMConfig := ⟨155, 145, 100, 115, 2⟩

/-- The state machine's state: current phase plus the count of consecutive
frames below `bottomThreshold` while DESCENDING. -/
structure SMState where
  phase : RepPhase
  bottomFrames : Nat
deriving DecidableEq, Repr

/-- Initial state: UP (§4.4, "initial state"). -/
def smInit : SMState := ⟨RepPhase.up, 0⟩

/-- Modelled from the spec: one frame of the `RepCycleStateMachine` (§4.4)
on the smoothed primary angle.  UP → DESCENDING when
`angle < lockoutThreshold`; DESCENDING → BOTTOM after `minBottomFrames`
consecutive frames with `angle < bottomThreshold`, or back to UP (aborted
rep) when `angle > upThreshold`; BOTTOM → ASCENDING when
`angle > resumeThreshold`; ASCENDING → UP when `angle > upThreshold`, the
completion point of one repetition (the returned flag is the
`onCycleComplete` trigger). -/
def smStep (cfg : SMConfig) (s : SMState) (angle : ℚ) : SMState × Bool :=
  match s.phase with
  | RepPhase.up =>
    if angle < cfg.lockoutThreshold then (⟨RepPhase.descending, 0⟩, false)
    else (s, false)
  | RepPhase.descending =>
    if angle < cfg.bottomThreshold then
      if cfg.minBottomFrames ≤ s.bottomFrames + 1 then (⟨RepPhase.bottom, 0⟩, false)
      else (⟨RepPhase.descending, s.bottomFrames + 1⟩, false)
    else if cfg.upThreshold < angle then (⟨RepPhase.up, 0⟩, false)
    else (⟨RepPhase.descending, 0⟩, false)
  | RepPhase.bottom =>
    if cfg.resumeThreshold < angle then (⟨RepPhase.ascending, 0⟩, false)
    else (s, false)
  | RepPhase.ascending =>
    if cfg.upThreshold < angle then (⟨RepPhase.up, 0⟩, true)
    else (s, false)

/-- Run the machine over a list of per-frame smoothed angles, collecting
after each frame the current phase and the `onCycleComplete` flag. -/
def smRun (cfg : SMConfig) (s : SMState) : List ℚ → List (RepPhase × Bool)
  | [] => []
  | a :: rest =>
    let r := smStep cfg s a
    (r.1.phase, r.2) :: smRun cfg r.1 rest

/-- Collapse consecutive duplicates, to read a frame-by-frame phase trace
as a sequence of visited phases. -/
def collapseRuns : List RepPhase → List RepPhase
  | [] => []
  | [a] => [a]
  | a :: b :: rest =>
    if a = b then collapseRuns (b :: rest) else a :: collapseRuns (b :: rest)

/-- Modelled from the spec: the per-rep accumulator `RepRecord` (§3, §4.5):
the union of all form-issue flags raised on any frame of the cycle, and
whether target depth was achieved at least once. -/
structure RepRecord where
  formIssues : Finset ℕ
  depthAchieved : Bool
deriving DecidableEq

/-- A fresh record, created when the phase leaves UP. -/
def initRecord : RepRecord := ⟨∅, false⟩

/-- Modelled from the spec: `RepValidator.onFrame` (§4.5) — accumulates
every distinct flag (union, not latest-only) and ORs depth achievement. -/
def onFrame (r : RepRecord) (flags : Finset ℕ) (depth : Bool) : RepRecord :=
  ⟨r.formIssues ∪ flags, r.depthAchieved || depth⟩

/-- The verdict of §4.5. -/
inductive Verdict
  | valid
  | invalid
deriving DecidableEq, Repr

/-- Modelled from the spec: `RepValidator.onCycleComplete` (§4.5) —
`VALID` iff `depthAchieved == true AND formIssues.isEmpty()`. -/
def onCycleComplete (r : RepRecord) : Verdict :=
  if r.depthAchieved = true ∧ r.formIssues = ∅ then Verdict.valid
  else Verdict.invalid

/-- A whole cycle: fold `onFrame` over the frames (each a set of flags and
a depth bit) and finalize. -/
def processCycle (frames : List (Finset ℕ × Bool)) : Verdict :=
  onCycleComplete (frames.foldl (fun r f => onFrame r f.1 f.2) initRecord)

end Analyzer

end FormCheck

namespace FormCheck

/-- If the state records a last speak time `t`, any `speak` call at a time
earlier than `t + MIN_SPEAK_INTERVAL_MS` starts no playback, whatever its
text and whether or not the previous utterance already finished. -/
theorem speak_blocked_in_window (e : Bool) (s : TTS.State) (text : String)
    (now : Nat) (h : now < s.lastSpeakTime + TTS.MIN_SPEAK_INTERVAL_MS) :
    (TTS.speak e s text now).2 = false := by
  unfold TTS.speak
  have hlt : now - s.lastSpeakTime < TTS.MIN_SPEAK_INTERVAL_MS := by
    unfold TTS.MIN_SPEAK_INTERVAL_MS at h ⊢
    omega
  split_ifs <;> simp_all

/-- A successful `speak` records its own time as `lastSpeakTime`. -/
theorem speak_sets_time (e : Bool) (s : TTS.State) (text : String) (now : Nat)
    (h : (TTS.speak e s text now).2 = true) :
    (TTS.speak e s text now).1.lastSpeakTime = now := by
  unfold TTS.speak at h ⊢
  split_ifs at h ⊢
  all_goals simp_all

/-- C10: `useTTS.speak` enforces a minimum gap between utterances: if a call
starts a playback at time `t`, then every `speak` call made at a time earlier
than `t + MIN_SPEAK_INTERVAL_MS` (3000 ms) returns without starting a
playback, regardless of its text — whether or not the first utterance has
already finished playing. -/
theorem speak_min_gap (e : Bool) (s : TTS.State) (text text2 : String)
    (t t2 : Nat) (h : (TTS.speak e s text t).2 = true)
    (h2 : t2 < t + TTS.MIN_SPEAK_INTERVAL_MS) :
    (TTS.speak e (TTS.speak e s text t).1 text2 t2).2 = false ∧
    (TTS.speak e (TTS.finishPlayback (TTS.speak e s text t).1) text2 t2).2 = false := by
  have ht := speak_sets_time e s text t h
  constructor
  · exact speak_blocked_in_window e _ text2 t2 (by rw [ht]; exact h2)
  · exact speak_blocked_in_window e _ text2 t2 (by simp [TTS.finishPlayback, ht]; exact h2)

/-- Helper: no path of the analysis handler ever writes `lastFrameSeq`;
the baseline is only moved by reset handling. -/
theorem handleAnalysis_lastFrameSeq (s : Client.State) (m : Client.AnalysisMsg)
    (now : Nat) :
    (Client.handleAnalysis s m now).state.lastFrameSeq = s.lastFrameSeq := by
  unfold Client.handleAnalysis
  split_ifs
  · rfl
  · rfl
  · rfl
  · cases hs : s.currentSessionId <;> cases hm : m.sessionId <;>
      cases ha : m.analysis <;> simp only [hs, hm, ha] <;> split_ifs <;> rfl

/-- Helper: any analysis message whose positive `frame_seq` is at most the
current baseline is dropped with the state untouched. -/
theorem handleAnalysis_staleSeq_drop (s : Client.State) (m : Client.AnalysisMsg)
    (now : Nat) (h1 : 0 < m.frameSeq) (h2 : m.frameSeq ≤ s.lastFrameSeq) :
    Client.handleAnalysis s m now = ⟨s, false, false⟩ := by
  unfold Client.handleAnalysis
  split_ifs with hp hm hseq
  · rfl
  · rfl
  · rfl
  · exact absurd ⟨h1, h2⟩ hseq

/-- C4 counterexample: the handler does not discard out-of-order analysis
messages.  From the initial state, a message with `frame_seq = 5` is
accepted, the baseline `lastFrameSeq` stays at 0, and a following message
with `frame_seq = 3 < 5` is accepted as well — the accepted `frame_seq`
values are not strictly increasing. -/
theorem frameSeq_not_increasing_counterexample :
    (Client.handleAnalysis Client.initState
        ⟨some "s1", 5, some ⟨"Go lower", Client.Severity.warning, 1, 0⟩⟩
        1000).accepted = true ∧
    (Client.handleAnalysis Client.initState
        ⟨some "s1", 5, some ⟨"Go lower", Client.Severity.warning, 1, 0⟩⟩
        1000).state.lastFrameSeq = 0 ∧
    (Client.handleAnalysis
        (Client.handleAnalysis Client.initState
          ⟨some "s1", 5, some ⟨"Go lower", Client.Severity.warning, 1, 0⟩⟩
          1000).state
        ⟨some "s1", 3, some ⟨"Good depth", Client.Severity.success, 2, 0⟩⟩
        1100).accepted = true ∧
    (3 : Nat) < 5 := by
  decide

/-- C4 (amended): the handler drops an analysis message exactly when its
positive `frame_seq` is at most the frame-sequence baseline
(`lastFrameSeqRef`), and no analysis message — accepted or not — ever
advances that baseline; the baseline is moved only by reset handling, so
accepted messages need not arrive with increasing `frame_seq`. -/
theorem frameSeq_baseline_drop (s : Client.State) (m : Client.AnalysisMsg)
    (now : Nat) (h1 : 0 < m.frameSeq) (h2 : m.frameSeq ≤ s.lastFrameSeq) :
    Client.handleAnalysis s m now = ⟨s, false, false⟩ ∧
    ∀ (s2 : Client.State) (m2 : Client.AnalysisMsg) (now2 : Nat),
      (Client.handleAnalysis s2 m2 now2).state.lastFrameSeq = s2.lastFrameSeq :=
  ⟨handleAnalysis_staleSeq_drop s m now h1 h2,
   fun s2 m2 now2 => handleAnalysis_lastFrameSeq s2 m2 now2⟩

theorem frameSeq_baseline_drop_witness :
    ((0 : Nat) < 4 ∧ (4 : Nat) ≤ Client.initState.lastFrameSeq + 4) ∧
    (Client.handleAnalysis
        { Client.initState with lastFrameSeq := Client.initState.lastFrameSeq + 4 }
        ⟨some "s1", 4, none⟩ 1000 =
      ⟨{ Client.initState with lastFrameSeq := Client.initState.lastFrameSeq + 4 },
        false, false⟩ ∧
     ∀ (s2 : Client.State) (m2 : Client.AnalysisMsg) (now2 : Nat),
       (Client.handleAnalysis s2 m2 now2).state.lastFrameSeq = s2.lastFrameSeq) :=
  ⟨⟨by decide, by decide⟩,
   frameSeq_baseline_drop
     { Client.initState with lastFrameSeq := Client.initState.lastFrameSeq + 4 }
     ⟨some "s1", 4, none⟩ 1000 (by decide) (by decide)⟩

theorem speak_min_gap_witness :
    ((TTS.speak true TTS.initState "Go lower" 3000).2 = true ∧
      3005 < 3000 + TTS.MIN_SPEAK_INTERVAL_MS) ∧
    ((TTS.speak true (TTS.speak true TTS.initState "Go lower" 3000).1
        "Keep your chest up" 3005).2 = false ∧
     (TTS.speak true
        (TTS.finishPlayback (TTS.speak true TTS.initState "Go lower" 3000).1)
        "Keep your chest up" 3005).2 = false) :=
  ⟨⟨by decide, by decide⟩,
   speak_min_gap true TTS.initState "Go lower" "Keep your chest up" 3000 3005
     (by decide) (by decide)⟩

/-- C3 counterexample: after `resetReps()` and before any
`reset_confirmation`, the 3-second reset timeout clears the pending flag;
an analysis message carrying no `session_id` and `frame_seq = 0` then
passes every drop guard and overwrites the counters — here `validReps`
becomes 7 instead of staying 0. -/
theorem resetWindow_counterexample :
    (Client.handleAnalysis
        (Client.fireResetTimeout (Client.resetReps Client.initState true) 3000)
        ⟨none, 0, some ⟨"Keep going", Client.Severity.warning, 7, 2⟩⟩
        5000).accepted = true ∧
    (Client.handleAnalysis
        (Client.fireResetTimeout (Client.resetReps Client.initState true) 3000)
        ⟨none, 0, some ⟨"Keep going", Client.Severity.warning, 7, 2⟩⟩
        5000).state.validReps = 7 ∧
    (Client.handleAnalysis
        (Client.fireResetTimeout (Client.resetReps Client.initState true) 3000)
        ⟨none, 0, some ⟨"Keep going", Client.Severity.warning, 7, 2⟩⟩
        5000).state.invalidReps = 2 := by
  decide

/-- C3 (amended): in the window opened by `resetReps()`, every analysis
message is dropped while the reset-pending flag is still set, and — after
the 3-second timeout clears the flag — every analysis message whose
`frame_seq` is positive (and within `Number.MAX_SAFE_INTEGER`) is dropped
against the bumped baseline; `resetReps` itself zeroes both counters and
bumps the baseline to the sentinel.  A message with `frame_seq ≤ 0` can
slip through after the timeout (see the counterexample). -/
theorem resetWindow_drop (s : Client.State) (m : Client.AnalysisMsg)
    (now : Nat) (hp : s.isResetPending = true)
    (_hb : s.lastFrameSeq = Client.maxSafeInteger) :
    Client.handleAnalysis s m now = ⟨s, false, false⟩ ∧
    (∀ (s2 : Client.State) (m2 : Client.AnalysisMsg) (now2 : Nat),
      s2.lastFrameSeq = Client.maxSafeInteger → 0 < m2.frameSeq →
      m2.frameSeq ≤ Client.maxSafeInteger →
      Client.handleAnalysis s2 m2 now2 = ⟨s2, false, false⟩) ∧
    (∀ b, (Client.resetReps s b).lastFrameSeq = Client.maxSafeInteger ∧
          (Client.resetReps s b).validReps = 0 ∧
          (Client.resetReps s b).invalidReps = 0) := by
  refine ⟨?_, ?_, ?_⟩
  · unfold Client.handleAnalysis
    simp [hp]
  · intro s2 m2 now2 hb2 h1 h2
    exact handleAnalysis_staleSeq_drop s2 m2 now2 h1 (hb2 ▸ h2)
  · intro b
    cases b <;> simp [Client.resetReps]

theorem resetWindow_drop_witness :
    ((Client.resetReps Client.initState true).isResetPending = true ∧
     (Client.resetReps Client.initState true).lastFrameSeq =
       Client.maxSafeInteger) ∧
    (Client.handleAnalysis (Client.resetReps Client.initState true)
        ⟨some "s1", 9, some ⟨"Go lower", Client.Severity.warning, 3, 1⟩⟩
        4000 = ⟨Client.resetReps Client.initState true, false, false⟩ ∧
     (∀ (s2 : Client.State) (m2 : Client.AnalysisMsg) (now2 : Nat),
       s2.lastFrameSeq = Client.maxSafeInteger → 0 < m2.frameSeq →
       m2.frameSeq ≤ Client.maxSafeInteger →
       Client.handleAnalysis s2 m2 now2 = ⟨s2, false, false⟩) ∧
     (∀ b, (Client.resetReps (Client.resetReps Client.initState true) b).lastFrameSeq =
             Client.maxSafeInteger ∧
           (Client.resetReps (Client.resetReps Client.initState true) b).validReps = 0 ∧
           (Client.resetReps (Client.resetReps Client.initState true) b).invalidReps = 0)) :=
  ⟨⟨by decide, by decide⟩,
   resetWindow_drop (Client.resetReps Client.initState true)
     ⟨some "s1", 9, some ⟨"Go lower", Client.Severity.warning, 3, 1⟩⟩
     4000 (by decide) (by decide)⟩

/-- C5 counterexample: the handler deduplicates against `lastFeedbackRef`,
not against the currently displayed text.  In the initial state the
displayed text is "Position yourself in frame" while `lastFeedbackRef` is
`""`; an analysis message carrying exactly the displayed text (with level
`error`) is treated as new: the severity is updated from `success` to
`error`, refuting "neither updates the displayed message and severity". -/
theorem dedup_displayed_counterexample :
    Client.initState.feedback = "Position yourself in frame" ∧
    Client.initState.feedbackLevel = Client.Severity.success ∧
    (Client.handleAnalysis Client.initState
        ⟨some "s1", 1,
         some ⟨"Position yourself in frame", Client.Severity.error, 0, 0⟩⟩
        1000).state.feedbackLevel = Client.Severity.error := by
  decide

/-- C5 (amended): the handler deduplicates against the last feedback text it
recorded (`lastFeedbackRef`) — which coincides with the displayed text
except initially and right after `resetReps` — leaving display, severity
and TTS state untouched and starting no playback when the incoming text
equals it; and `useTTS.speak` with a text equal to the last spoken text
starts no playback. -/
theorem dedup_lastFeedback (s : Client.State) (m : Client.AnalysisMsg)
    (now : Nat) (a : Client.AnalysisData) (hm : m.analysis = some a)
    (hfb : a.feedback = s.lastFeedback) :
    (Client.handleAnalysis s m now).state.feedback = s.feedback ∧
    (Client.handleAnalysis s m now).state.feedbackLevel = s.feedbackLevel ∧
    (Client.handleAnalysis s m now).state.tts = s.tts ∧
    (Client.handleAnalysis s m now).playbackStarted = false ∧
    ∀ (ts : TTS.State) (text : String) (t : Nat),
      text = ts.lastSpokenText → (TTS.speak true ts text t).2 = false := by
  refine ?_
  have hmain : (Client.handleAnalysis s m now).state.feedback = s.feedback ∧
      (Client.handleAnalysis s m now).state.feedbackLevel = s.feedbackLevel ∧
      (Client.handleAnalysis s m now).state.tts = s.tts ∧
      (Client.handleAnalysis s m now).playbackStarted = false := by
    unfold Client.handleAnalysis
    split_ifs
    · exact ⟨rfl, rfl, rfl, rfl⟩
    · exact ⟨rfl, rfl, rfl, rfl⟩
    · exact ⟨rfl, rfl, rfl, rfl⟩
    · cases hs : s.currentSessionId <;> cases hms : m.sessionId <;>
        simp only [hs, hms, hm] <;> split_ifs with hc <;>
        first
          | exact ⟨rfl, rfl, rfl, rfl⟩
          | exact absurd (hc.2.2.2) (by simp [hfb])
  refine ⟨hmain.1, hmain.2.1, hmain.2.2.1, hmain.2.2.2, ?_⟩
  intro ts text t ht
  unfold TTS.speak
  split_ifs <;> simp_all

theorem dedup_lastFeedback_witness :
    ((⟨some "s1", 2,
        some ⟨"Go lower", Client.Severity.warning, 1, 0⟩⟩ :
          Client.AnalysisMsg).analysis =
        some ⟨"Go lower", Client.Severity.warning, 1, 0⟩ ∧
      (⟨"Go lower", Client.Severity.warning, 1, 0⟩ :
          Client.AnalysisData).feedback =
        ({ Client.initState with lastFeedback := "Go lower" } :
          Client.State).lastFeedback) ∧
    ((Client.handleAnalysis { Client.initState with lastFeedback := "Go lower" }
        ⟨some "s1", 2, some ⟨"Go lower", Client.Severity.warning, 1, 0⟩⟩
        1000).state.feedback =
      ({ Client.initState with lastFeedback := "Go lower" } :
        Client.State).feedback ∧
     (Client.handleAnalysis { Client.initState with lastFeedback := "Go lower" }
        ⟨some "s1", 2, some ⟨"Go lower", Client.Severity.warning, 1, 0⟩⟩
        1000).state.feedbackLevel =
      ({ Client.initState with lastFeedback := "Go lower" } :
        Client.State).feedbackLevel ∧
     (Client.handleAnalysis { Client.initState with lastFeedback := "Go lower" }
        ⟨some "s1", 2, some ⟨"Go lower", Client.Severity.warning, 1, 0⟩⟩
        1000).state.tts =
      ({ Client.initState with lastFeedback := "Go lower" } :
        Client.State).tts ∧
     (Client.handleAnalysis { Client.initState with lastFeedback := "Go lower" }
        ⟨some "s1", 2, some ⟨"Go lower", Client.Severity.warning, 1, 0⟩⟩
        1000).playbackStarted = false ∧
     ∀ (ts : TTS.State) (text : String) (t : Nat),
       text = ts.lastSpokenText → (TTS.speak true ts text t).2 = false) :=
  ⟨⟨by decide, by decide⟩,
   dedup_lastFeedback { Client.initState with lastFeedback := "Go lower" }
     ⟨some "s1", 2, some ⟨"Go lower", Client.Severity.warning, 1, 0⟩⟩
     1000 ⟨"Go lower", Client.Severity.warning, 1, 0⟩ (by decide) (by decide)⟩

/-- C6: `resetReps` is idempotent on the client's analysis state: from any
starting state, a second call leaves exactly the state of the first call,
with both counters zeroed, the feedback display reset, the UI-update
timestamp cleared and the stale-frame baseline at
`Number.MAX_SAFE_INTEGER`. -/
theorem resetReps_idempotent (s : Client.State) (b : Bool) :
    Client.resetReps (Client.resetReps s b) b = Client.resetReps s b ∧
    (Client.resetReps s b).validReps = 0 ∧
    (Client.resetReps s b).invalidReps = 0 ∧
    (Client.resetReps s b).feedback = "Next set — get ready!" ∧
    (Client.resetReps s b).feedbackLevel = Client.Severity.success ∧
    (Client.resetReps s b).lastUpdate = 0 ∧
    (Client.resetReps s b).lastFrameSeq = Client.maxSafeInteger := by
  cases b <;> simp [Client.resetReps]

/-- C7 counterexample: there is no minimum dwell interval on the displayed
feedback.  From the initial state, "Go lower" is displayed at t = 1000 ms
and replaced by "Keep your chest up" only 50 ms later, both at severity
`warning` — the replacement is not a higher-priority preemption and 50 ms
is far below the claimed ~300-500 ms dwell. -/
theorem no_dwell_counterexample :
    (Client.handleAnalysis Client.initState
        ⟨some "s1", 1, some ⟨"Go lower", Client.Severity.warning, 0, 0⟩⟩
        1000).state.feedback = "Go lower" ∧
    (Client.handleAnalysis
        (Client.handleAnalysis Client.initState
          ⟨some "s1", 1, some ⟨"Go lower", Client.Severity.warning, 0, 0⟩⟩
          1000).state
        ⟨some "s1", 2, some ⟨"Keep your chest up", Client.Severity.warning, 0, 0⟩⟩
        1050).state.feedback = "Keep your chest up" ∧
    (Client.handleAnalysis
        (Client.handleAnalysis Client.initState
          ⟨some "s1", 1, some ⟨"Go lower", Client.Severity.warning, 0, 0⟩⟩
          1000).state
        ⟨some "s1", 2, some ⟨"Keep your chest up", Client.Severity.warning, 0, 0⟩⟩
        1050).state.feedbackLevel = Client.Severity.warning ∧
    (1050 : Nat) - 1000 < 300 := by
  decide

/-- C7 (amended): the displayed message is held only by text deduplication,
not by any minimum dwell: an accepted analysis message whose nonempty
feedback text differs from the last recorded text replaces the displayed
message and severity immediately, at every arrival time `now`; only the
TTS layer rate-limits (see the 3000 ms gap of `speak`). -/
theorem immediate_replace (s : Client.State) (m : Client.AnalysisMsg)
    (now : Nat) (a : Client.AnalysisData)
    (h1 : s.isResetPending = false) (h2 : s.currentSessionId = none)
    (h3 : s.lastFrameSeq < m.frameSeq)
    (h4 : s.isSetTransition = false) (h5 : s.isWorkoutComplete = false)
    (hm : m.analysis = some a) (h6 : a.feedback ≠ "")
    (h7 : a.feedback ≠ s.lastFeedback) :
    (Client.handleAnalysis s m now).state.feedback = a.feedback ∧
    (Client.handleAnalysis s m now).state.feedbackLevel = a.feedbackLevel := by
  have hmis : Client.sessionMismatch s m = false := by
    unfold Client.sessionMismatch
    rw [h2]
  have hseq : ¬(0 < m.frameSeq ∧ m.frameSeq ≤ s.lastFrameSeq) := by omega
  unfold Client.handleAnalysis
  rw [h1]
  simp only [Bool.false_eq_true, if_false, hmis]
  rw [if_neg hseq]
  cases hms : m.sessionId <;>
    simp only [h2, hms, hm] <;>
    split_ifs with hc hd <;>
    first
      | exact ⟨rfl, rfl⟩
      | exact absurd ⟨by simp [h4], by simp [h5], h6, h7⟩ hc

theorem immediate_replace_witness :
    (Client.initState.isResetPending = false ∧
     Client.initState.currentSessionId = none ∧
     Client.initState.lastFrameSeq < 1 ∧
     Client.initState.isSetTransition = false ∧
     Client.initState.isWorkoutComplete = false ∧
     (⟨some "s1", 1, some ⟨"Go lower", Client.Severity.warning, 0, 0⟩⟩ :
        Client.AnalysisMsg).analysis =
       some ⟨"Go lower", Client.Severity.warning, 0, 0⟩ ∧
     ("Go lower" : String) ≠ "" ∧
     ("Go lower" : String) ≠ Client.initState.lastFeedback) ∧
    ((Client.handleAnalysis Client.initState
        ⟨some "s1", 1, some ⟨"Go lower", Client.Severity.warning, 0, 0⟩⟩
        777).state.feedback = "Go lower" ∧
     (Client.handleAnalysis Client.initState
        ⟨some "s1", 1, some ⟨"Go lower", Client.Severity.warning, 0, 0⟩⟩
        777).state.feedbackLevel = Client.Severity.warning) :=
  ⟨⟨by decide, by decide, by decide, by decide, by decide, by decide,
    by decide, by decide⟩,
   immediate_replace Client.initState
     ⟨some "s1", 1, some ⟨"Go lower", Client.Severity.warning, 0, 0⟩⟩
     777 ⟨"Go lower", Client.Severity.warning, 0, 0⟩
     (by decide) (by decide) (by decide) (by decide) (by decide)
     (by decide) (by decide) (by decide)⟩

/-- Helper: the drift bound is a consequence of the extrapolation
invariant. -/
theorem extrapInv_drift (j : Skeleton.JointState) (h : Skeleton.extrapInv j) :
    |j.rx - j.tx| ≤ Skeleton.MAX_EXTRAPOLATE_S * |j.vx| ∧
    |j.ry - j.ty| ≤ Skeleton.MAX_EXTRAPOLATE_S * |j.vy| := by
  obtain ⟨t, ht0, htM, hx, hy⟩ := h
  constructor
  · rw [hx]
    have : j.tx + j.vx * t - j.tx = j.vx * t := by ring
    rw [this, abs_mul, abs_of_nonneg ht0, mul_comm]
    exact mul_le_mul_of_nonneg_right htM (abs_nonneg _)
  · rw [hy]
    have : j.ty + j.vy * t - j.ty = j.vy * t := by ring
    rw [this, abs_mul, abs_of_nonneg ht0, mul_comm]
    exact mul_le_mul_of_nonneg_right htM (abs_nonneg _)

/-- Helper: every landmark update leaves the joint satisfying the
extrapolation invariant (first sighting and snap use `t = 0`, the normal
update uses `t = min LEAD_TIME_S MAX_EXTRAPOLATE_S`). -/
theorem updateJoint_extrapInv (j : Option Skeleton.JointState)
    (x y : ℚ) (vis : Bool) (nvx nvy now : ℚ) :
    Skeleton.extrapInv (Skeleton.updateJoint j x y vis nvx nvy now) := by
  unfold Skeleton.updateJoint
  cases j with
  | none =>
    exact ⟨0, le_refl 0, by norm_num [Skeleton.MAX_EXTRAPOLATE_S], by simp, by simp⟩
  | some j =>
    dsimp only
    split_ifs
    · exact ⟨0, le_refl 0, by norm_num [Skeleton.MAX_EXTRAPOLATE_S], by simp, by simp⟩
    · refine ⟨min Skeleton.LEAD_TIME_S Skeleton.MAX_EXTRAPOLATE_S, ?_, min_le_right _ _, rfl, rfl⟩
      exact le_min (by norm_num [Skeleton.LEAD_TIME_S]) (by norm_num [Skeleton.MAX_EXTRAPOLATE_S])

/-- C9: the dead-reckoning loop caps extrapolation at
`MAX_EXTRAPOLATE_S = 0.55 s`: on every animation frame (with the monotone
`performance.now()` clock) the rendered position stays of the form
`(tx + vx*t, ty + vy*t)` for some `0 ≤ t ≤ 0.55` — the invariant every
server landmark update establishes — so the rendered point never drifts
from the last server target by more than `0.55` times the smoothed velocity
magnitude per axis, no matter how long server updates stall. -/
theorem extrapolation_capped (j : Skeleton.JointState) (now : ℚ)
    (hinv : Skeleton.extrapInv j) (hclock : j.arrivedAt ≤ now) :
    Skeleton.extrapInv (Skeleton.animStep j now) ∧
    |(Skeleton.animStep j now).rx - (Skeleton.animStep j now).tx| ≤
      Skeleton.MAX_EXTRAPOLATE_S * |(Skeleton.animStep j now).vx| ∧
    |(Skeleton.animStep j now).ry - (Skeleton.animStep j now).ty| ≤
      Skeleton.MAX_EXTRAPOLATE_S * |(Skeleton.animStep j now).vy| ∧
    ∀ (j0 : Option Skeleton.JointState) (x y : ℚ) (vis : Bool)
      (nvx nvy t0 : ℚ),
      Skeleton.extrapInv (Skeleton.updateJoint j0 x y vis nvx nvy t0) := by
  have hstep : Skeleton.extrapInv (Skeleton.animStep j now) := by
    unfold Skeleton.animStep
    split_ifs with hv
    · exact hinv
    · dsimp only
      split_ifs with hm
      · refine ⟨min ((now - j.arrivedAt) / 1000 + Skeleton.LEAD_TIME_S)
          Skeleton.MAX_EXTRAPOLATE_S, ?_, min_le_right _ _, rfl, rfl⟩
        refine le_min ?_ (by norm_num [Skeleton.MAX_EXTRAPOLATE_S])
        have h1 : (0 : ℚ) ≤ (now - j.arrivedAt) / 1000 := by
          apply div_nonneg (by linarith) (by norm_num)
        norm_num [Skeleton.LEAD_TIME_S]
        linarith
      · exact hinv
  exact ⟨hstep, (extrapInv_drift _ hstep).1, (extrapInv_drift _ hstep).2,
    fun j0 x y vis nvx nvy t0 => updateJoint_extrapInv j0 x y vis nvx nvy t0⟩

theorem extrapolation_capped_witness :
    (Skeleton.extrapInv (⟨0, 0, 1, 1, 0, 0, true, 0⟩ : Skeleton.JointState) ∧
     ((⟨0, 0, 1, 1, 0, 0, true, 0⟩ : Skeleton.JointState).arrivedAt ≤ (1000 : ℚ))) ∧
    (Skeleton.extrapInv
        (Skeleton.animStep (⟨0, 0, 1, 1, 0, 0, true, 0⟩ : Skeleton.JointState) 1000) ∧
     |(Skeleton.animStep (⟨0, 0, 1, 1, 0, 0, true, 0⟩ : Skeleton.JointState) 1000).rx -
        (Skeleton.animStep (⟨0, 0, 1, 1, 0, 0, true, 0⟩ : Skeleton.JointState) 1000).tx| ≤
       Skeleton.MAX_EXTRAPOLATE_S *
        |(Skeleton.animStep (⟨0, 0, 1, 1, 0, 0, true, 0⟩ : Skeleton.JointState) 1000).vx| ∧
     |(Skeleton.animStep (⟨0, 0, 1, 1, 0, 0, true, 0⟩ : Skeleton.JointState) 1000).ry -
        (Skeleton.animStep (⟨0, 0, 1, 1, 0, 0, true, 0⟩ : Skeleton.JointState) 1000).ty| ≤
       Skeleton.MAX_EXTRAPOLATE_S *
        |(Skeleton.animStep (⟨0, 0, 1, 1, 0, 0, true, 0⟩ : Skeleton.JointState) 1000).vy| ∧
     ∀ (j0 : Option Skeleton.JointState) (x y : ℚ) (vis : Bool)
       (nvx nvy t0 : ℚ),
       Skeleton.extrapInv (Skeleton.updateJoint j0 x y vis nvx nvy t0)) :=
  ⟨⟨⟨0, by norm_num, by norm_num [Skeleton.MAX_EXTRAPOLATE_S], by norm_num, by norm_num⟩,
    by norm_num⟩,
   extrapolation_capped ⟨0, 0, 1, 1, 0, 0, true, 0⟩ 1000
     ⟨0, by norm_num, by norm_num [Skeleton.MAX_EXTRAPOLATE_S], by norm_num, by norm_num⟩
     (by norm_num)⟩

/-- C8: `SkeletonOverlay` never renders a joint whose most recent landmark
had visibility below `VISIBILITY_THRESHOLD = 0.45`: the landmark update
sets the joint's `visible` flag to `visibility >= 0.45` (false here), the
animation loop never changes the flag, and `getPoint` returns `none` for an
absent or invisible joint, so no circle is drawn for it and no skeleton
line uses it as an endpoint. -/
theorem skeleton_invisible_not_rendered (j : Option Skeleton.JointState)
    (p : Option Skeleton.PrevTarget) (id : Nat) (lms : List Skeleton.Landmark)
    (mirrored : Bool) (now w h : ℚ) (lm : Skeleton.Landmark)
    (hlast : Skeleton.lastEntryFor id lms = some lm)
    (hvis : Skeleton.effVisibility lm < Skeleton.VISIBILITY_THRESHOLD) :
    Skeleton.getPoint (Skeleton.applyLandmarks j p id lms mirrored now).1 w h = none ∧
    ∀ (j2 : Skeleton.JointState) (t : ℚ),
      (Skeleton.animStep j2 t).visible = j2.visible := by
  constructor
  · have hne : lms.isEmpty = false := by
      cases lms with
      | nil => simp [Skeleton.lastEntryFor] at hlast
      | cons a as => rfl
    have hdec : decide (Skeleton.VISIBILITY_THRESHOLD ≤ Skeleton.effVisibility lm) = false :=
      decide_eq_false (not_le.mpr hvis)
    unfold Skeleton.applyLandmarks
    rw [hne, hlast]
    simp only [Bool.false_eq_true, if_false, hdec]
    unfold Skeleton.getPoint Skeleton.updateJoint
    cases j with
    | none => simp
    | some j =>
      dsimp only
      split_ifs <;> simp_all
  · intro j2 t
    unfold Skeleton.animStep
    dsimp only
    split_ifs <;> rfl

theorem skeleton_invisible_not_rendered_witness :
    (Skeleton.lastEntryFor 11 [⟨11, 1/2, 1/2, some (1/10)⟩] =
       some ⟨11, 1/2, 1/2, some (1/10)⟩ ∧
     Skeleton.effVisibility ⟨11, 1/2, 1/2, some (1/10)⟩ <
       Skeleton.VISIBILITY_THRESHOLD) ∧
    (Skeleton.getPoint
        (Skeleton.applyLandmarks none none 11 [⟨11, 1/2, 1/2, some (1/10)⟩]
          true 0).1 100 100 = none ∧
     ∀ (j2 : Skeleton.JointState) (t : ℚ),
       (Skeleton.animStep j2 t).visible = j2.visible) :=
  ⟨⟨by rfl, by norm_num [Skeleton.effVisibility, Skeleton.VISIBILITY_THRESHOLD]⟩,
   skeleton_invisible_not_rendered none none 11 [⟨11, 1/2, 1/2, some (1/10)⟩]
     true 0 100 100 ⟨11, 1/2, 1/2, some (1/10)⟩ (by rfl)
     (by norm_num [Skeleton.effVisibility, Skeleton.VISIBILITY_THRESHOLD])⟩

/-- C1: with the squat thresholds (155/145/100/115, `minBottomFrames = 2`)
and starting in UP, the angle sequence 170°, 140°, 90°, 90°, 90°, 120°,
160° drives exactly the phase sequence UP → DESCENDING → BOTTOM →
ASCENDING → UP, and `onCycleComplete` fires exactly once, on the final
frame's ASCENDING → UP transition. -/
theorem squat_cycle_phase_sequence :
    Analyzer.collapseRuns (Analyzer.RepPhase.up ::
        (Analyzer.smRun Analyzer.squatConfig Analyzer.smInit
          [170, 140, 90, 90, 90, 120, 160]).map Prod.fst) =
      [Analyzer.RepPhase.up, Analyzer.RepPhase.descending,
       Analyzer.RepPhase.bottom, Analyzer.RepPhase.ascending,
       Analyzer.RepPhase.up] ∧
    (Analyzer.smRun Analyzer.squatConfig Analyzer.smInit
        [170, 140, 90, 90, 90, 120, 160]).map Prod.snd =
      [false, false, false, false, false, false, true] := by
  constructor <;> rfl

/-- Helper: depth achievement accumulates as a boolean OR over the
frames. -/
theorem foldl_onFrame_depth (frames : List (Finset ℕ × Bool))
    (r : Analyzer.RepRecord) :
    (frames.foldl (fun r f => Analyzer.onFrame r f.1 f.2) r).depthAchieved =
      (r.depthAchieved || frames.any (fun f => f.2)) := by
  induction frames generalizing r with
  | nil => simp
  | cons f fs ih =>
    rw [List.foldl_cons, ih]
    simp [Analyzer.onFrame, Bool.or_assoc]

/-- Helper: the accumulated issue set is empty iff it started empty and no
frame raised a flag. -/
theorem foldl_onFrame_issues (frames : List (Finset ℕ × Bool))
    (r : Analyzer.RepRecord) :
    (frames.foldl (fun r f => Analyzer.onFrame r f.1 f.2) r).formIssues = ∅ ↔
      (r.formIssues = ∅ ∧ ∀ f ∈ frames, f.1 = ∅) := by
  induction frames generalizing r with
  | nil => simp
  | cons f fs ih =>
    rw [List.foldl_cons, ih]
    simp only [Analyzer.onFrame, Finset.union_eq_empty, List.mem_cons]
    constructor
    · rintro ⟨⟨h1, h2⟩, h3⟩
      exact ⟨h1, fun g hg => hg.elim (fun he => he ▸ h2) (h3 g)⟩
    · rintro ⟨h1, h2⟩
      exact ⟨⟨h1, h2 f (Or.inl rfl)⟩, fun g hg => h2 g (Or.inr hg)⟩

/-- C2: a completed rep is VALID iff the depth flag was set on at least one
frame of the cycle and the union of form-issue flags over all frames is
empty; a single flagged frame anywhere, or never achieving depth, makes the
rep INVALID. -/
theorem repValidator_verdict_iff (frames : List (Finset ℕ × Bool)) :
    Analyzer.processCycle frames = Analyzer.Verdict.valid ↔
      ((∃ f ∈ frames, f.2 = true) ∧ ∀ f ∈ frames, f.1 = ∅) := by
  unfold Analyzer.processCycle Analyzer.onCycleComplete
  split_ifs with h
  · simp only [true_iff]
    obtain ⟨h1, h2⟩ := h
    rw [foldl_onFrame_depth] at h1
    simp only [Analyzer.initRecord, Bool.false_or, List.any_eq_true] at h1
    exact ⟨h1, ((foldl_onFrame_issues frames Analyzer.initRecord).mp h2).2⟩
  · simp only [reduceCtorEq, false_iff]
    rintro ⟨⟨f, hf, hf2⟩, hall⟩
    apply h
    refine ⟨?_, ?_⟩
    · rw [foldl_onFrame_depth]
      simp only [Analyzer.initRecord, Bool.false_or, List.any_eq_true]
      exact ⟨f, hf, hf2⟩
    · exact (foldl_onFrame_issues frames Analyzer.initRecord).mpr ⟨rfl, hall⟩

end FormCheck
